import Mathlib

set_option maxRecDepth 100000

/-!
Verification of the obfsclient obfs2 client session engine.

The development shallowly embeds the two source files of the repository,
`src/main.cc` (the SIGINT shutdown state machine) and
`src/schwanenlied/pt/obfs2client.cc` (both variants of the obfs2 client:
the older `Obfs2Client` and the newer `obfs2::Client`).

Bytes are modelled as `Nat` (values below 256 on the wire).  The
cryptographic primitives used by the client (`crypto::Sha256`,
`crypto::AesCtr128`, the random source) live outside the given source
files, so they are modelled from the specification: SHA-256 is
implemented concretely per FIPS 180-4 ("H is SHA-256"), and AES-CTR is
modelled over an abstract block function, with the counter semantics of
spec section 4.3.3 (IV as big-endian counter, +1 per 16-byte block).
-/

namespace Obfs2

/-! ### SHA-256, modelled from the spec

Modelled from the spec: `crypto::Sha256` (not under `src/`) is the
SHA-256 digest; this is the FIPS 180-4 compression function over `Nat`
words reduced mod 2^32. -/

/-- Truncate to a 32-bit word. -/
def w32 (x : Nat) : Nat := x % 4294967296

/-- Rotate a 32-bit word right by `n`. -/
def rotr (n x : Nat) : Nat := w32 ((x >>> n) ||| (x <<< (32 - n)))

/-- The 64 SHA-256 round constants (decimal). -/
def shaK : List Nat :=
  [1116352408, 1899447441, 3049323471, 3921009573,
   961987163, 1508970993, 2453635748, 2870763221,
   3624381080, 310598401, 607225278, 1426881987,
   1925078388, 2162078206, 2614888103, 3248222580,
   3835390401, 4022224774, 264347078, 604807628,
   770255983, 1249150122, 1555081692, 1996064986,
   2554220882, 2821834349, 2952996808, 3210313671,
   3336571891, 3584528711, 113926993, 338241895,
   666307205, 773529912, 1294757372, 1396182291,
   1695183700, 1986661051, 2177026350, 2456956037,
   2730485921, 2820302411, 3259730800, 3345764771,
   3516065817, 3600352804, 4094571909, 275423344,
   430227734, 506948616, 659060556, 883997877,
   958139571, 1322822218, 1537002063, 1747873779,
   1955562222, 2024104815, 2227730452, 2361852424,
   2428436474, 2756734187, 3204031479, 3329325298]

/-- The SHA-256 initial hash words (decimal). -/
def shaH0 : List Nat :=
  [1779033703, 3144134277, 1013904242, 2773480762,
   1359893119, 2600822924, 528734635, 1541459225]

/-- One message-schedule extension step: append word `W t` for `t = w.length`. -/
def extendStep (w : List Nat) : List Nat :=
  let n := w.length
  let x15 := w.getD (n - 15) 0
  let x2 := w.getD (n - 2) 0
  let s0 := (rotr 7 x15) ^^^ (rotr 18 x15) ^^^ (x15 >>> 3)
  let s1 := (rotr 17 x2) ^^^ (rotr 19 x2) ^^^ (x2 >>> 10)
  w ++ [w32 (w.getD (n - 16) 0 + s0 + w.getD (n - 7) 0 + s1)]

/-- Extend 16 message words to the 64-entry schedule. -/
def schedule (w16 : List Nat) : List Nat :=
  (List.range 48).foldl (fun w _ => extendStep w) w16

/-- One SHA-256 round on the working variables `[a,b,c,d,e,f,g,h]`. -/
def shaRound (st : List Nat) (kw : Nat × Nat) : List Nat :=
  let a := st.getD 0 0
  let b := st.getD 1 0
  let c := st.getD 2 0
  let d := st.getD 3 0
  let e := st.getD 4 0
  let f := st.getD 5 0
  let g := st.getD 6 0
  let h := st.getD 7 0
  let s1 := (rotr 6 e) ^^^ (rotr 11 e) ^^^ (rotr 25 e)
  let ch := (e &&& f) ^^^ ((4294967295 ^^^ e) &&& g)
  let t1 := w32 (h + s1 + ch + kw.1 + kw.2)
  let s0 := (rotr 2 a) ^^^ (rotr 13 a) ^^^ (rotr 22 a)
  let maj := (a &&& b) ^^^ (a &&& c) ^^^ (b &&& c)
  let t2 := w32 (s0 + maj)
  [w32 (t1 + t2), a, b, c, w32 (d + t1), e, f, g]

/-- Compress one 64-byte block (given as 16 words) into the hash state. -/
def compress (h : List Nat) (w16 : List Nat) : List Nat :=
  let w := schedule w16
  let fin := (shaK.zip w).foldl shaRound h
  [w32 (h.getD 0 0 + fin.getD 0 0), w32 (h.getD 1 0 + fin.getD 1 0),
   w32 (h.getD 2 0 + fin.getD 2 0), w32 (h.getD 3 0 + fin.getD 3 0),
   w32 (h.getD 4 0 + fin.getD 4 0), w32 (h.getD 5 0 + fin.getD 5 0),
   w32 (h.getD 6 0 + fin.getD 6 0), w32 (h.getD 7 0 + fin.getD 7 0)]

/-- Big-endian 4-byte encoding of a 32-bit word. -/
def be32 (x : Nat) : List Nat :=
  [x / 16777216 % 256, x / 65536 % 256, x / 256 % 256, x % 256]

/-- Big-endian 8-byte encoding of a 64-bit value. -/
def be64 (x : Nat) : List Nat := be32 (x / 4294967296) ++ be32 (x % 4294967296)

/-- Group a byte list into big-endian 32-bit words. -/
def bytesToWords : List Nat → List Nat
  | b0 :: b1 :: b2 :: b3 :: rest =>
      (b0 * 16777216 + b1 * 65536 + b2 * 256 + b3) :: bytesToWords rest
  | _ => []

/-- Split a byte list into 64-byte blocks (fuel bounds the recursion;
`toBlocks` supplies enough fuel for the whole list). -/
def toBlocksAux : Nat → List Nat → List (List Nat)
  | 0, _ => []
  | _, [] => []
  | fuel + 1, b :: rest =>
      ((b :: rest).take 64) :: toBlocksAux fuel ((b :: rest).drop 64)

/-- Split a byte list into 64-byte blocks. -/
def toBlocks (l : List Nat) : List (List Nat) := toBlocksAux l.length l

/-- SHA-256 padding: append 0x80, zeros, and the 64-bit bit length. -/
def shaPad (msg : List Nat) : List Nat :=
  msg ++ 128 :: List.replicate ((119 - msg.length % 64) % 64) 0
      ++ be64 (8 * msg.length)

/-- Serialize the eight hash words big-endian. -/
def digestBytes (hs : List Nat) : List Nat :=
  be32 (hs.getD 0 0) ++ be32 (hs.getD 1 0) ++ be32 (hs.getD 2 0) ++
  be32 (hs.getD 3 0) ++ be32 (hs.getD 4 0) ++ be32 (hs.getD 5 0) ++
  be32 (hs.getD 6 0) ++ be32 (hs.getD 7 0)

/-- SHA-256 of a byte list, as a 32-byte list. -/
def sha256 (msg : List Nat) : List Nat :=
  digestBytes ((toBlocks (shaPad msg)).foldl
    (fun h blk => compress h (bytesToWords blk)) shaH0)

/-- FIPS 180-4 test vector: SHA-256 of the three ASCII bytes of abc
(digest bytes in decimal). -/
example : sha256 [97, 98, 99] =
    [186, 120, 22, 191, 143, 1, 207, 234,
     65, 65, 64, 222, 93, 174, 34, 35,
     176, 3, 97, 163, 150, 23, 122, 156,
     180, 16, 255, 97, 242, 0, 21, 173] := by decide

/-! ### Constants from `obfs2client.cc` and the client headers -/

/-- `crypto::Sha256::kDigestLength`. -/
def kDigestLength : Nat := 32

/-- `crypto::kAes128KeyLength` (bytes). -/
def kAes128KeyLength : Nat := 16

/-- `kMagicValue = 0x2bf5ca7e`. -/
def kMagicValue : Nat := 0x2bf5ca7e

/-- `kMaxPadding = 8192`. -/
def kMaxPadding : Nat := 8192

/-- `kSeedLength = 16`. -/
def kSeedLength : Nat := 16

/-- ASCII bytes of the literal `init_mac_key` array ("Initiator obfuscation padding"). -/
def initMacKey : List Nat :=
  [73, 110, 105, 116, 105, 97, 116, 111, 114, 32,
   111, 98, 102, 117, 115, 99, 97, 116, 105, 111, 110, 32,
   112, 97, 100, 100, 105, 110, 103]

/-- ASCII bytes of the literal `resp_mac_key` array ("Responder obfuscation padding"). -/
def respMacKey : List Nat :=
  [82, 101, 115, 112, 111, 110, 100, 101, 114, 32,
   111, 98, 102, 117, 115, 99, 97, 116, 105, 111, 110, 32,
   112, 97, 100, 100, 105, 110, 103]

/-- ASCII bytes of the literal `init_data` array ("Initiator obfuscated data"). -/
def initData : List Nat :=
  [73, 110, 105, 116, 105, 97, 116, 111, 114, 32,
   111, 98, 102, 117, 115, 99, 97, 116, 101, 100, 32,
   100, 97, 116, 97]

/-- ASCII bytes of the literal `resp_data` array ("Responder obfuscated data"). -/
def respData : List Nat :=
  [82, 101, 115, 112, 111, 110, 100, 101, 114, 32,
   111, 98, 102, 117, 115, 99, 97, 116, 101, 100, 32,
   100, 97, 116, 97]

/-! ### MAC (`Client::mac`, obfs2client.cc lines 616-639; the older
`Obfs2Client::mac` at lines 244-267 is byte-for-byte the same logic)

The C++ takes pointers plus lengths and a caller-supplied digest buffer
and returns `bool`; here keys and messages are byte lists (a null
pointer is not representable), the digest buffer is represented by its
size, and failure is `none`.  `sha.digest` is total in the model, as
the digest length has already been checked against `kDigestLength`. -/

/-- `Client::mac`: reject empty key, empty message, or a digest buffer
whose size is not `kDigestLength`; otherwise SHA-256 of key-msg-key. -/
def mac (key buf : List Nat) (digestLen : Nat) : Option (List Nat) :=
  if key.length = 0 then none
  else if buf.length = 0 then none
  else if digestLen ≠ kDigestLength then none
  else some (sha256 (key ++ buf ++ key))

/-! ### AES-128-CTR

Modelled from the spec (section 4.3.3): `crypto::AesCtr128` is not
under `src/`.  The block cipher itself is an abstract parameter
`E : key bytes -> counter value -> 16 keystream bytes`; the counter is
the 16-byte IV read big-endian, incremented once per 16-byte block, and
the keystream is XORed onto the data.  A cipher context holds its
keystream and the byte offset already consumed. -/

/-- Big-endian value of a byte list. -/
def beNat (l : List Nat) : Nat := l.foldl (fun acc b => acc * 256 + b) 0

/-- Keystream byte `i` for block function `E`, key and IV bytes. -/
def ksBytes (E : List Nat → Nat → List Nat) (key iv : List Nat) (i : Nat) : Nat :=
  (E key ((beNat iv + i / 16) % (2 ^ 128))).getD (i % 16) 0

/-- An AES-CTR context: its keystream and current byte position. -/
structure AesCtr where
  ks : Nat → Nat
  pos : Nat

/-- XOR a byte list against the keystream starting at position `pos`. -/
def ctrProcess (ks : Nat → Nat) (pos : Nat) : List Nat → List Nat
  | [] => []
  | b :: rest => (b ^^^ ks pos) :: ctrProcess ks (pos + 1) rest

/-- `AesCtr128::process`: transform the bytes, advancing the context. -/
def AesCtr.process (st : AesCtr) (xs : List Nat) : List Nat × AesCtr :=
  (ctrProcess st.ks st.pos xs, ⟨st.ks, st.pos + xs.length⟩)

/-- `AesCtr128::set_state` as invoked in obfs2client.cc: key the context
with the first `kAes128KeyLength` bytes of a 32-byte secret and take the
IV/counter from the remaining bytes, position 0. -/
def setState (E : List Nat → Nat → List Nat) (secret : List Nat) : AesCtr :=
  ⟨ksBytes E (secret.take kAes128KeyLength) (secret.drop kAes128KeyLength), 0⟩

/-! ### KDF (`Client::kdf_obfs2`, obfs2client.cc lines 641-685) -/

/-- `Client::kdf_obfs2`: derive INIT_SECRET and RESP_SECRET by MACing
the seed concatenation under the two data labels, and key the initiator
and responder ciphers from them.  Returns the two freshly keyed
contexts, or `none` when a MAC fails. -/
def kdf_obfs2 (E : List Nat → Nat → List Nat) (initSeed respSeed : List Nat) :
    Option (AesCtr × AesCtr) :=
  let to_mac := initSeed ++ respSeed
  match mac initData to_mac kDigestLength with
  | none => none
  | some initSecret =>
    let initiatorAes := setState E initSecret
    match mac respData to_mac kDigestLength with
    | none => none
    | some respSecret => some (initiatorAes, setState E respSecret)

/-! ### Session state (`obfs2::Client` members plus its two endpoints)

Each bufferevent endpoint is split into its read buffer (bytes received
and not yet consumed) and write buffer (bytes the session has written
out, accumulated in order). -/

/-- `Socks5Server::Session::State` (the values the obfs2 claims touch). -/
inductive SessionState where
  | connecting
  | established
  | closed
  deriving DecidableEq, Repr

/-- `Socks5Server::Session::Reply` (the values the obfs2 client uses). -/
inductive Reply where
  | succeeded
  | generalFailure
  deriving DecidableEq, Repr

/-- The obfs2 client session: `Client` members of obfs2client.cc plus
the endpoint buffers and the last SOCKS reply written. -/
structure ClientState where
  state : SessionState
  initSeed : List Nat
  respSeed : List Nat
  initiatorAes : AesCtr
  responderAes : AesCtr
  receivedSeedHdr : Bool
  respPadLen : Nat
  incomingReadBuf : List Nat
  outgoingReadBuf : List Nat
  incomingWriteBuf : List Nat
  outgoingWriteBuf : List Nat
  socksReply : Option Reply

/-- Modelled from the spec: `Socks5Server::Session::send_socks5_response`
is not under `src/`.  Per spec section 4.2, it records the reply, flips
the session to ESTABLISHED on SUCCEEDED (arranging close otherwise),
and returns `true` iff the reply was SUCCEEDED. -/
def send_socks5_response (st : ClientState) (r : Reply) : ClientState × Bool :=
  if r = Reply.succeeded then
    ({ st with state := SessionState.established, socksReply := some r }, true)
  else
    ({ st with state := SessionState.closed, socksReply := some r }, false)

/-- Read a 32-bit word from 4 bytes, big-endian (`ntohl` of the memory). -/
def fromBE32 (l : List Nat) : Nat :=
  l.getD 0 0 * 16777216 + l.getD 1 0 * 65536 + l.getD 2 0 * 256 + l.getD 3 0

/-! ### `Client::on_outgoing_connected` (obfs2client.cc lines 376-467)

The randomness (`rand_.get_bytes` for INIT_SEED, `pad_dist_(rand_)` for
PADLEN, `rand_.get_bytes` for the padding plaintext) enters as
parameters.  The older `Obfs2Client::on_outgoing_connected` (lines
46-119) differs in exactly one point: it writes the padding plaintext
without passing it through `initiator_aes_` first. -/

/-- `Client::on_outgoing_connected`: derive INIT_PAD_KEY from INIT_SEED,
key the initiator cipher, write INIT_SEED in the clear, then the
encrypted 8-byte header, then the encrypted padding. -/
def on_outgoing_connected (E : List Nat → Nat → List Nat) (st : ClientState)
    (initSeed : List Nat) (padlen : Nat) (padPlain : List Nat) :
    ClientState × Bool :=
  let st := { st with initSeed := initSeed }
  match mac initMacKey initSeed kDigestLength with
  | none => send_socks5_response st Reply.generalFailure
  | some initPadKey =>
    let aes0 := setState E initPadKey
    let hdr := be32 kMagicValue ++ be32 padlen
    let (hdrCt, aes1) := aes0.process hdr
    let st1 :=
      { st with
        initiatorAes := aes1
        outgoingWriteBuf := st.outgoingWriteBuf ++ initSeed ++ hdrCt }
    if padlen > 0 then
      let (padCt, aes2) := aes1.process padPlain
      ({ st1 with
         initiatorAes := aes2
         outgoingWriteBuf := st1.outgoingWriteBuf ++ padCt }, true)
    else (st1, true)

/-! ### `Client::on_outgoing_data_connecting` (obfs2client.cc lines 500-583) -/

/-- The padding-skip tail of `on_outgoing_data_connecting` (lines
569-583): drain `min resp_pad_len_ len` bytes, return `true` while
padding remains, and send SUCCEEDED once it is all consumed. -/
def skipPadding (st : ClientState) : ClientState × Bool :=
  if st.respPadLen > 0 then
    let len := st.outgoingReadBuf.length
    let toDrain := min st.respPadLen len
    let st1 :=
      { st with
        outgoingReadBuf := st.outgoingReadBuf.drop toDrain
        respPadLen := st.respPadLen - toDrain }
    if st1.respPadLen > 0 then (st1, true)
    else send_socks5_response st1 Reply.succeeded
  else send_socks5_response st Reply.succeeded

/-- `Client::on_outgoing_data_connecting`: wait for the 24-byte
seed+header, derive RESP_PAD_KEY, decrypt and validate the header,
derive the session keys, then skip the responder padding.  The
`SL_ASSERT(state_ == State::kCONNECTING)` is modelled as an early
`false` return on a non-CONNECTING state. -/
def on_outgoing_data_connecting (E : List Nat → Nat → List Nat)
    (st : ClientState) : ClientState × Bool :=
  if st.state ≠ SessionState.connecting then (st, false)
  else if !st.receivedSeedHdr then
    if st.outgoingReadBuf.length < kSeedLength + 8 then (st, true)
    else
      let respSeed := st.outgoingReadBuf.take kSeedLength
      let rest := st.outgoingReadBuf.drop kSeedLength
      let st0 :=
        { st with
          respSeed := respSeed
          outgoingReadBuf := rest.drop 8 }
      match mac respMacKey respSeed kDigestLength with
      | none => send_socks5_response st0 Reply.generalFailure
      | some respPadKey =>
        let (hdrPt, respAes) := (setState E respPadKey).process (rest.take 8)
        let st1 := { st0 with responderAes := respAes }
        if fromBE32 (hdrPt.take 4) ≠ kMagicValue then
          send_socks5_response st1 Reply.generalFailure
        else
          let padl := fromBE32 (hdrPt.drop 4)
          let st2 := { st1 with respPadLen := padl }
          if padl > kMaxPadding then
            send_socks5_response st2 Reply.generalFailure
          else
            match kdf_obfs2 E st2.initSeed respSeed with
            | none => send_socks5_response st2 Reply.generalFailure
            | some (ia, ra) =>
              skipPadding
                { st2 with
                  initiatorAes := ia
                  responderAes := ra
                  receivedSeedHdr := true }
  else skipPadding st

/-! ### Data-phase splice (`Client::on_incoming_data` lines 469-498,
`Client::on_outgoing_data` lines 585-614)

`evbuffer_pullup`, `AesCtr128::process` and `bufferevent_write_buffer`
succeed in the model, so the `close_session` error paths (which return
`false`) are unreachable here; the `SL_ASSERT(state_ == kESTABLISHED)`
is modelled as an early `false` return. -/

/-- `Client::on_incoming_data`: encrypt the whole incoming read buffer
through the initiator cipher and move it to the outgoing endpoint. -/
def on_incoming_data (st : ClientState) : ClientState × Bool :=
  if st.state ≠ SessionState.established then (st, false)
  else if st.incomingReadBuf.length = 0 then (st, true)
  else
    let (ct, aes1) := st.initiatorAes.process st.incomingReadBuf
    ({ st with
       initiatorAes := aes1
       incomingReadBuf := []
       outgoingWriteBuf := st.outgoingWriteBuf ++ ct }, true)

/-- `Client::on_outgoing_data`: decrypt the whole outgoing read buffer
through the responder cipher and move it to the incoming endpoint. -/
def on_outgoing_data (st : ClientState) : ClientState × Bool :=
  if st.state ≠ SessionState.established then (st, false)
  else if st.outgoingReadBuf.length = 0 then (st, true)
  else
    let (pt, aes1) := st.responderAes.process st.outgoingReadBuf
    ({ st with
       responderAes := aes1
       outgoingReadBuf := []
       incomingWriteBuf := st.incomingWriteBuf ++ pt }, true)

/-! ### `Obfs2Client::gen_padlen` (obfs2client.cc lines 314-326)

The secure random source's successive 32-bit draws enter as a list;
the rejection loop keeps the first draw whose value masked with 0x2fff
does not exceed `kMaxPadding`. -/

/-- The rejection loop of `gen_padlen`: the masked value of the first
draw that passes the `while` exit condition, if any draw passes. -/
def gen_padlen : List Nat → Option Nat
  | [] => none
  | d :: rest =>
    let r := d &&& 0x2fff
    if r > kMaxPadding then gen_padlen rest else some r

/-- The `SL_ASSERT(ret < kMaxPadding)` executed before `gen_padlen`
returns. -/
def padlenAssertCond (r : Nat) : Bool := r < kMaxPadding

/-- The exit condition of the rejection loop (`while (ret > kMaxPadding)`
continues, so the loop exits when this holds). -/
def padlenExitCond (r : Nat) : Bool := !(r > kMaxPadding)

/-! ### The SIGINT shutdown state machine (main.cc lines 260-293)

`nr_sigints` and the effects of the handler body: case 1 calls
`close()` on every listener, case 2 calls `close_sessions()` on every
listener and then falls through (the source marks it `FALLSTHROUGH`) to
the default case, which calls `event_base_loopbreak`. -/

/-- The observable shutdown state: the signal count, whether listeners
still accept, whether sessions are still alive, whether the event loop
has been told to break. -/
structure ShutdownState where
  nrSigints : Nat
  listenersAccepting : Bool
  sessionsAlive : Bool
  loopBroken : Bool
  deriving DecidableEq, Repr

/-- The state when the event loop starts dispatching. -/
def shutdownInit : ShutdownState :=
  ⟨0, true, true, false⟩

/-- One delivery of SIGINT: the `event_callback_fn` body in `main`. -/
def sigint_step (s : ShutdownState) : ShutdownState :=
  let n := s.nrSigints + 1
  if n = 1 then { s with nrSigints := n, listenersAccepting := false }
  else if n = 2 then
    { s with nrSigints := n, sessionsAlive := false, loopBroken := true }
  else { s with nrSigints := n, loopBroken := true }

/-- Iterated signal delivery. -/
def sigints : Nat → ShutdownState
  | 0 => shutdownInit
  | k + 1 => sigint_step (sigints k)

/-! ### Splice drivers

The runtime delivers each arriving chunk by placing it in the endpoint
read buffer and invoking the data callback; in ESTABLISHED the callback
always drains the buffer completely, so consecutive deliveries see an
empty buffer. -/

/-- Deliver one chunk from the SOCKS client and run `on_incoming_data`. -/
def feedIncoming (st : ClientState) (c : List Nat) : ClientState :=
  (on_incoming_data { st with incomingReadBuf := c }).1

/-- Deliver a sequence of chunks from the SOCKS client. -/
def runIncoming (st : ClientState) (cs : List (List Nat)) : ClientState :=
  cs.foldl feedIncoming st

/-- Deliver one chunk from the bridge and run `on_outgoing_data`. -/
def feedOutgoing (st : ClientState) (c : List Nat) : ClientState :=
  (on_outgoing_data { st with outgoingReadBuf := c }).1

/-- Deliver a sequence of chunks from the bridge. -/
def runOutgoing (st : ClientState) (cs : List (List Nat)) : ClientState :=
  cs.foldl feedOutgoing st

/-! ### Concrete fixtures used by witnesses and counterexamples -/

/-- A concrete block function standing in for keyed AES. -/
def testE : List Nat → Nat → List Nat :=
  fun key ctr => (List.range 16).map (fun j => (key.getD j 0 + ctr + j) % 256)

/-- An un-keyed cipher context (the contexts before `set_state`). -/
def zeroAes : AesCtr := ⟨fun _ => 0, 0⟩

/-- Sixteen zero bytes. -/
def z16 : List Nat := List.replicate 16 0

/-- A freshly created session in CONNECTING state. -/
def baseState : ClientState :=
  { state := SessionState.connecting
    initSeed := z16
    respSeed := z16
    initiatorAes := zeroAes
    responderAes := zeroAes
    receivedSeedHdr := false
    respPadLen := 0
    incomingReadBuf := []
    outgoingReadBuf := []
    incomingWriteBuf := []
    outgoingWriteBuf := []
    socksReply := none }

/-- The keystream of the responder pad cipher for an all-zero RESP_SEED
under `testE`. -/
def respPadKs : Nat → Nat :=
  (setState testE (sha256 (respMacKey ++ z16 ++ respMacKey))).ks

/-- A valid responder handshake reply: all-zero seed, encrypted header
announcing PADLEN 2, and the two padding bytes. -/
def wireOk : List Nat :=
  z16 ++ ctrProcess respPadKs 0 (be32 kMagicValue ++ be32 2) ++ [7, 9]

/-- A responder handshake reply whose header decrypts to a wrong magic. -/
def wireBad : List Nat :=
  z16 ++ ctrProcess respPadKs 0 (be32 0xdeadbeef ++ be32 0)

/-- A concrete initiator data keystream. -/
def kiW : Nat → Nat := fun i => (i + 1) % 256

/-- A concrete responder data keystream. -/
def krW : Nat → Nat := fun i => (2 * i + 3) % 256

/-- A concrete session in ESTABLISHED state with keyed ciphers. -/
def establishedW : ClientState :=
  { baseState with
    state := SessionState.established
    initiatorAes := ⟨kiW, 0⟩
    responderAes := ⟨krW, 0⟩ }

/-- A session that has parsed the responder seed and header and still
has padding outstanding, with two buffered bytes. -/
def partialHdrState : ClientState :=
  { baseState with
    receivedSeedHdr := true
    respPadLen := 3
    outgoingReadBuf := [1, 2] }

/-- The responder header as `on_outgoing_data_connecting` decrypts it
from a wire buffer `buf`: the 8 bytes after the seed, XORed against the
keystream of the cipher keyed from MAC(resp_mac_key, RESP_SEED). -/
def respHdrPlain (E : List Nat → Nat → List Nat) (buf : List Nat) : List Nat :=
  ctrProcess
    (setState E (sha256 (respMacKey ++ buf.take kSeedLength ++ respMacKey))).ks
    0 ((buf.drop kSeedLength).take 8)

/-! ## Shared lemmas -/

/-- CTR processing preserves length. -/
theorem ctrProcess_length (ks : Nat → Nat) (pos : Nat) (xs : List Nat) :
    (ctrProcess ks pos xs).length = xs.length := by
  induction xs generalizing pos with
  | nil => rfl
  | cons b rest ih => simp [ctrProcess, ih]

/-- CTR processing is chunking-invariant: one pass over a concatenation
equals two passes with the position carried across. -/
theorem ctrProcess_append (ks : Nat → Nat) (pos : Nat) (xs ys : List Nat) :
    ctrProcess ks pos (xs ++ ys) =
      ctrProcess ks pos xs ++ ctrProcess ks (pos + xs.length) ys := by
  induction xs generalizing pos with
  | nil => simp [ctrProcess]
  | cons b rest ih =>
    have h : pos + 1 + rest.length = pos + (rest.length + 1) := by omega
    simp [ctrProcess, ih, h]

/-- Applying the same keystream at the same position twice is the
identity (CTR en/decryption is a XOR involution). -/
theorem ctrProcess_ctrProcess (ks : Nat → Nat) (pos : Nat) (xs : List Nat) :
    ctrProcess ks pos (ctrProcess ks pos xs) = xs := by
  induction xs generalizing pos with
  | nil => rfl
  | cons b rest ih => simp [ctrProcess, ih, Nat.xor_cancel_right]

/-- `be32` always yields four bytes. -/
theorem be32_length (x : Nat) : (be32 x).length = 4 := rfl

/-- The serialized digest always has `kDigestLength` bytes. -/
theorem digestBytes_length (hs : List Nat) : (digestBytes hs).length = 32 := by
  simp [digestBytes, be32]

/-- SHA-256 output is exactly 32 bytes. -/
theorem sha256_length (m : List Nat) : (sha256 m).length = 32 :=
  digestBytes_length _

/-- `mac` on a non-empty key and message with a 32-byte digest buffer
computes SHA-256 of key-message-key. -/
theorem mac_eq (key buf : List Nat) (h1 : key ≠ []) (h2 : buf ≠ []) :
    mac key buf kDigestLength = some (sha256 (key ++ buf ++ key)) := by
  simp [mac, List.length_eq_zero, h1, h2]

/-- `kdf_obfs2` succeeds on a non-empty seed concatenation and keys both
ciphers from the MAC-derived secrets. -/
theorem kdf_obfs2_eq (E : List Nat → Nat → List Nat) (i r : List Nat)
    (h : i ++ r ≠ []) :
    kdf_obfs2 E i r =
      some (setState E (sha256 (initData ++ (i ++ r) ++ initData)),
            setState E (sha256 (respData ++ (i ++ r) ++ respData))) := by
  have h1 : mac initData (i ++ r) kDigestLength =
      some (sha256 (initData ++ (i ++ r) ++ initData)) :=
    mac_eq _ _ (by decide) h
  have h2 : mac respData (i ++ r) kDigestLength =
      some (sha256 (respData ++ (i ++ r) ++ respData)) :=
    mac_eq _ _ (by decide) h
  simp [kdf_obfs2, h1, h2]

/-- The signal counter counts the deliveries. -/
theorem sigints_nrSigints (k : Nat) : (sigints k).nrSigints = k := by
  induction k with
  | zero => rfl
  | succ j ih =>
    simp only [sigints, sigint_step, ih]
    split
    · rfl
    · split <;> rfl

/-! ## Claim theorems -/

/-- C4 (counterexample): the claim predicts that after two deliveries of
the shutdown trigger the event loop is not yet broken (only the third
breaks it); in the code the second signal's case falls through to
`event_base_loopbreak`, so the loop is already broken after two
signals. -/
theorem loopbreak_on_second_cex :
    (sigints 1).loopBroken = false ∧ (sigints 2).loopBroken = true := by
  decide

/-- C4 (amended): the first signal only stops the listeners from
accepting (sessions continue, loop intact); the second signal
force-closes all sessions and, falling through, breaks the event loop;
every delivery from the second onward leaves the loop broken. -/
theorem shutdown_stages :
    sigints 1 = ⟨1, false, true, false⟩ ∧
    sigints 2 = ⟨2, false, false, true⟩ ∧
    ∀ k, 2 ≤ k → (sigints k).loopBroken = true := by
  refine ⟨by decide, by decide, ?_⟩
  intro k hk
  induction k with
  | zero => omega
  | succ j ih =>
    rcases Nat.lt_or_ge j 2 with hj | hj
    · interval_cases j
      · omega
      · decide
    · have hb := ih (by omega)
      have hn := sigints_nrSigints j
      simp [sigints, sigint_step, hn]
      split
      · omega
      · split <;> simp

/-- C4 (witness): delivering the trigger three times leaves the loop
broken. -/
theorem shutdown_stages_witness : (sigints 3).loopBroken = true :=
  shutdown_stages.2.2 3 (by decide)

/-- C5: the rejection loop of `gen_padlen` accepts the masked value
8192 (the loop exit condition holds there), yet the `SL_ASSERT` that
runs before returning demands a value strictly below `kMaxPadding`, so
it fails on that very value; every value the sampler returns does lie
in `[0, kMaxPadding]`. -/
theorem gen_padlen_bug :
    (gen_padlen [8192] = some kMaxPadding ∧
     padlenExitCond kMaxPadding = true ∧
     padlenAssertCond kMaxPadding = false) ∧
    ∀ draws r, gen_padlen draws = some r → r ≤ kMaxPadding := by
  refine ⟨by decide, ?_⟩
  intro draws
  induction draws with
  | nil => intro r h; simp [gen_padlen] at h
  | cons d rest ih =>
    intro r h
    simp only [gen_padlen] at h
    split at h
    · exact ih r h
    · rename_i hc
      have heq := Option.some.inj h
      simp only [kMaxPadding] at hc ⊢
      omega

/-- C5 (witness): a draw whose masked value passes the loop is returned
and is within the padding bound. -/
theorem gen_padlen_bug_witness : gen_padlen [5] = some 5 ∧ 5 ≤ kMaxPadding :=
  ⟨by decide, gen_padlen_bug.2 [5] 5 (by decide)⟩

/-- C6: `mac` fails exactly on an empty key, an empty message, or a
digest buffer whose size is not 32; on valid inputs it computes
SHA-256 of key-message-key, a 32-byte digest.  (A null pointer is not
representable in the list model, and the modelled SHA-256 primitive is
total.) -/
theorem mac_sha256_spec (key buf : List Nat) (dlen : Nat) :
    (mac key buf dlen = none ↔ key = [] ∨ buf = [] ∨ dlen ≠ kDigestLength) ∧
    (key ≠ [] → buf ≠ [] → dlen = kDigestLength →
      mac key buf dlen = some (sha256 (key ++ buf ++ key)) ∧
      (sha256 (key ++ buf ++ key)).length = kDigestLength) := by
  constructor
  · unfold mac
    split_ifs with h1 h2 h3 <;>
      simp_all [List.length_eq_zero]
  · intro h1 h2 h3
    subst h3
    exact ⟨mac_eq key buf h1 h2, sha256_length _⟩

/-- C6 (witness): a one-byte key and message with a 32-byte digest
buffer succeed. -/
theorem mac_sha256_spec_witness :
    mac [1] [2] 32 = some (sha256 ([1] ++ [2] ++ [1])) ∧
    (sha256 ([1] ++ [2] ++ [1])).length = kDigestLength :=
  (mac_sha256_spec [1] [2] 32).2 (by decide) (by decide) rfl

/-- C10: in ESTABLISHED, a data callback invoked with an empty read
buffer on its endpoint returns `true` and leaves the session untouched:
no cipher advance, no bytes written, no error path. -/
theorem established_empty_buffer_noop (st : ClientState)
    (h : st.state = SessionState.established) :
    (st.incomingReadBuf = [] → on_incoming_data st = (st, true)) ∧
    (st.outgoingReadBuf = [] → on_outgoing_data st = (st, true)) := by
  constructor <;> intro hb <;>
    simp [on_incoming_data, on_outgoing_data, h, hb]

/-- C10 (witness): a concrete keyed ESTABLISHED session with empty read
buffers is left unchanged by both callbacks. -/
theorem established_empty_buffer_noop_witness :
    on_incoming_data establishedW = (establishedW, true) ∧
    on_outgoing_data establishedW = (establishedW, true) :=
  ⟨(established_empty_buffer_noop establishedW rfl).1 rfl,
   (established_empty_buffer_noop establishedW rfl).2 rfl⟩

/-- The keystream of a freshly keyed context. -/
theorem setState_ks (E : List Nat → Nat → List Nat) (s : List Nat) :
    (setState E s).ks =
      ksBytes E (s.take kAes128KeyLength) (s.drop kAes128KeyLength) := rfl

/-- A freshly keyed context starts at position 0. -/
theorem setState_pos (E : List Nat → Nat → List Nat) (s : List Nat) :
    (setState E s).pos = 0 := rfl

/-- C7: for any seeds with a non-empty concatenation, `kdf_obfs2`
computes INIT_SECRET and RESP_SECRET as the MACs of the seed
concatenation under the labels "Initiator obfuscated data" and
"Responder obfuscated data" (each a SHA-256 of label-seeds-label), and
keys the initiator and responder ciphers with the first 16 bytes of
the respective secret, IV from the last 16 bytes, counter at 0. -/
theorem kdf_obfs2_spec (E : List Nat → Nat → List Nat) (i r : List Nat)
    (h : i ++ r ≠ []) :
    kdf_obfs2 E i r =
      some
        (⟨ksBytes E
            ((sha256 (initData ++ (i ++ r) ++ initData)).take kAes128KeyLength)
            ((sha256 (initData ++ (i ++ r) ++ initData)).drop kAes128KeyLength),
          0⟩,
         ⟨ksBytes E
            ((sha256 (respData ++ (i ++ r) ++ respData)).take kAes128KeyLength)
            ((sha256 (respData ++ (i ++ r) ++ respData)).drop kAes128KeyLength),
          0⟩) ∧
    mac initData (i ++ r) kDigestLength =
      some (sha256 (initData ++ (i ++ r) ++ initData)) ∧
    mac respData (i ++ r) kDigestLength =
      some (sha256 (respData ++ (i ++ r) ++ respData)) := by
  refine ⟨?_, mac_eq _ _ (by decide) h, mac_eq _ _ (by decide) h⟩
  rw [kdf_obfs2_eq E i r h]
  rfl

/-- C7 (witness): with INIT_SEED and RESP_SEED both all-zero, the
derived INIT_SECRET is SHA-256 of the initiator label, 32 zero bytes,
and the label again. -/
theorem kdf_obfs2_spec_witness :
    kdf_obfs2 testE z16 z16 =
      some
        (⟨ksBytes testE
            ((sha256 (initData ++ List.replicate 32 0 ++ initData)).take
              kAes128KeyLength)
            ((sha256 (initData ++ List.replicate 32 0 ++ initData)).drop
              kAes128KeyLength),
          0⟩,
         ⟨ksBytes testE
            ((sha256 (respData ++ List.replicate 32 0 ++ respData)).take
              kAes128KeyLength)
            ((sha256 (respData ++ List.replicate 32 0 ++ respData)).drop
              kAes128KeyLength),
          0⟩) := by
  have h := (kdf_obfs2_spec testE z16 z16 (by decide)).1
  have hz : z16 ++ z16 = List.replicate 32 0 := by decide
  rw [hz] at h
  exact h

/-- C3: a successful `Client::on_outgoing_connected` writes, in order,
the 16-byte INIT_SEED in the clear, the 8-byte header (big-endian MAGIC
then big-endian PADLEN) encrypted under the initiator pad cipher from
position 0, and exactly PADLEN bytes of padding encrypted under the
same cipher continuing at position 8. -/
theorem outgoing_connected_wire_format (E : List Nat → Nat → List Nat)
    (st : ClientState) (initSeed : List Nat) (padlen : Nat)
    (padPlain : List Nat) (h1 : initSeed ≠ []) (h2 : padPlain.length = padlen)
    (h3 : st.outgoingWriteBuf = []) :
    (on_outgoing_connected E st initSeed padlen padPlain).2 = true ∧
    (on_outgoing_connected E st initSeed padlen padPlain).1.outgoingWriteBuf =
      initSeed ++
      ctrProcess (setState E (sha256 (initMacKey ++ initSeed ++ initMacKey))).ks
        0 (be32 kMagicValue ++ be32 padlen) ++
      ctrProcess (setState E (sha256 (initMacKey ++ initSeed ++ initMacKey))).ks
        8 padPlain ∧
    (ctrProcess (setState E (sha256 (initMacKey ++ initSeed ++ initMacKey))).ks
        8 padPlain).length = padlen := by
  have hm : mac initMacKey initSeed kDigestLength =
      some (sha256 (initMacKey ++ initSeed ++ initMacKey)) :=
    mac_eq _ _ (by decide) h1
  have hlen : (be32 kMagicValue ++ be32 padlen).length = 8 := by
    simp [be32]
  rcases Nat.eq_zero_or_pos padlen with hp | hp
  · subst hp
    have hnil : padPlain = [] := List.length_eq_zero.mp h2
    subst hnil
    simp [on_outgoing_connected, hm, AesCtr.process, setState_pos, h3,
      ctrProcess]
  · simp only [on_outgoing_connected, hm, AesCtr.process, setState_pos,
      hlen, h3]
    rw [if_pos hp]
    refine ⟨rfl, ?_, ?_⟩
    · simp
    · rw [ctrProcess_length]
      exact h2

/-- C3 (witness): a concrete run with a zero seed and two padding
bytes. -/
theorem outgoing_connected_wire_format_witness :
    (on_outgoing_connected testE baseState z16 2 [5, 6]).2 = true ∧
    (on_outgoing_connected testE baseState z16 2 [5, 6]).1.outgoingWriteBuf =
      z16 ++
      ctrProcess (setState testE (sha256 (initMacKey ++ z16 ++ initMacKey))).ks
        0 (be32 kMagicValue ++ be32 2) ++
      ctrProcess (setState testE (sha256 (initMacKey ++ z16 ++ initMacKey))).ks
        8 [5, 6] ∧
    (ctrProcess (setState testE (sha256 (initMacKey ++ z16 ++ initMacKey))).ks
        8 [5, 6]).length = 2 :=
  outgoing_connected_wire_format testE baseState z16 2 [5, 6]
    (by decide) (by decide) rfl

/-- C8: while CONNECTING, the handshake reader never consumes more than
it needs: with the seed+header still unread and fewer than 24 bytes
buffered it returns `true` and leaves the whole session untouched; once
the header is parsed, a call drains exactly `min resp_pad_len_ len`
bytes, the padding counter never underflows, and bytes beyond the
padding stay buffered. -/
theorem connecting_consumption_bounds (E : List Nat → Nat → List Nat)
    (st : ClientState) (h : st.state = SessionState.connecting) :
    (st.receivedSeedHdr = false →
      st.outgoingReadBuf.length < kSeedLength + 8 →
      on_outgoing_data_connecting E st = (st, true)) ∧
    (st.receivedSeedHdr = true →
      (on_outgoing_data_connecting E st).1.outgoingReadBuf =
        st.outgoingReadBuf.drop
          (min st.respPadLen st.outgoingReadBuf.length) ∧
      (on_outgoing_data_connecting E st).1.respPadLen =
        st.respPadLen - min st.respPadLen st.outgoingReadBuf.length ∧
      (on_outgoing_data_connecting E st).1.respPadLen +
        min st.respPadLen st.outgoingReadBuf.length = st.respPadLen) := by
  constructor
  · intro hr hlen
    simp [on_outgoing_data_connecting, h, hr, hlen]
  · intro hr
    simp only [on_outgoing_data_connecting]
    rw [if_neg (by simp [h]), if_neg (by simp [hr])]
    by_cases hp : 0 < st.respPadLen
    · simp only [skipPadding, if_pos hp]
      split
      · exact ⟨rfl, rfl, Nat.sub_add_cancel (Nat.min_le_left _ _)⟩
      · rw [send_socks5_response, if_pos rfl]
        exact ⟨rfl, rfl, Nat.sub_add_cancel (Nat.min_le_left _ _)⟩
    · have h0 : st.respPadLen = 0 := by omega
      simp [skipPadding, h0, send_socks5_response]

/-- C8 (witness): a fresh session with an empty buffer is returned
unchanged, and a session with 3 outstanding padding bytes and 2
buffered bytes drains exactly 2 of them. -/
theorem connecting_consumption_bounds_witness :
    on_outgoing_data_connecting testE baseState = (baseState, true) ∧
    ((on_outgoing_data_connecting testE partialHdrState).1.outgoingReadBuf =
      partialHdrState.outgoingReadBuf.drop
        (min partialHdrState.respPadLen
          partialHdrState.outgoingReadBuf.length) ∧
     (on_outgoing_data_connecting testE partialHdrState).1.respPadLen =
      partialHdrState.respPadLen -
        min partialHdrState.respPadLen
          partialHdrState.outgoingReadBuf.length ∧
     (on_outgoing_data_connecting testE partialHdrState).1.respPadLen +
        min partialHdrState.respPadLen
          partialHdrState.outgoingReadBuf.length =
        partialHdrState.respPadLen) :=
  ⟨(connecting_consumption_bounds testE baseState rfl).1 rfl (by decide),
   (connecting_consumption_bounds testE partialHdrState rfl).2 rfl⟩

/-- C9: while CONNECTING with the full 24-byte seed+header buffered, if
the decrypted responder header carries a wrong magic or announces more
than `kMaxPadding` bytes of padding, the callback sends the
GENERAL_FAILURE SOCKS reply (returning `false`) and the session does
not reach ESTABLISHED. -/
theorem handshake_reject_invalid_header (E : List Nat → Nat → List Nat)
    (st : ClientState) (h1 : st.state = SessionState.connecting)
    (h2 : st.receivedSeedHdr = false)
    (h3 : kSeedLength + 8 ≤ st.outgoingReadBuf.length)
    (hbad :
      fromBE32 ((respHdrPlain E st.outgoingReadBuf).take 4) ≠ kMagicValue ∨
      kMaxPadding < fromBE32 ((respHdrPlain E st.outgoingReadBuf).drop 4)) :
    (on_outgoing_data_connecting E st).2 = false ∧
    (on_outgoing_data_connecting E st).1.socksReply =
      some Reply.generalFailure ∧
    (on_outgoing_data_connecting E st).1.state ≠ SessionState.established := by
  have hm : mac respMacKey (st.outgoingReadBuf.take kSeedLength)
      kDigestLength =
      some (sha256 (respMacKey ++ st.outgoingReadBuf.take kSeedLength ++
        respMacKey)) := by
    apply mac_eq _ _ (by decide)
    intro hnil
    have hl := congrArg List.length hnil
    simp only [List.length_take, List.length_nil, kSeedLength] at hl
    simp only [kSeedLength] at h3
    omega
  have hlt : ¬ st.outgoingReadBuf.length < kSeedLength + 8 :=
    Nat.not_lt.mpr h3
  simp only [respHdrPlain] at hbad
  simp only [on_outgoing_data_connecting, h1, h2, ne_eq, Bool.not_false,
    if_true, reduceCtorEq, not_false_eq_true, reduceIte, hlt, if_false, hm,
    AesCtr.process, setState_pos]
  rcases hbad with hmg | hpl
  · rw [if_pos hmg]
    simp [send_socks5_response]
  · by_cases hmg : fromBE32 ((ctrProcess
        (setState E (sha256 (respMacKey ++ st.outgoingReadBuf.take kSeedLength
          ++ respMacKey))).ks 0
        ((st.outgoingReadBuf.drop kSeedLength).take 8)).take 4) ≠ kMagicValue
    · rw [if_pos hmg]
      simp [send_socks5_response]
    · rw [if_neg hmg, if_pos hpl]
      simp [send_socks5_response]

/-- C9 (witness): a concrete 24-byte reply whose header decrypts to the
magic 0xdeadbeef is rejected with GENERAL_FAILURE. -/
theorem handshake_reject_invalid_header_witness :
    (on_outgoing_data_connecting testE
      { baseState with outgoingReadBuf := wireBad }).2 = false ∧
    (on_outgoing_data_connecting testE
      { baseState with outgoingReadBuf := wireBad }).1.socksReply =
      some Reply.generalFailure ∧
    (on_outgoing_data_connecting testE
      { baseState with outgoingReadBuf := wireBad }).1.state ≠
      SessionState.established :=
  handshake_reject_invalid_header testE
    { baseState with outgoingReadBuf := wireBad }
    rfl rfl (by decide) (by decide)

set_option maxHeartbeats 2000000 in
/-- C2 (counterexample): run `on_outgoing_connected` with PADLEN 2 (the
initiator pad cipher ends at position 10 after header and padding), then
complete the handshake on a valid responder reply announcing 2 padding
bytes.  Contrary to the claim, the initiator cipher used for data starts
at position 0 — `kdf_obfs2` re-keys it, discarding the post-handshake
pad-cipher state — and the responder cipher also sits at position 0,
not advanced through the 2 drained padding bytes. -/
theorem handshake_state_not_continued_cex :
    (on_outgoing_connected testE baseState z16 2 [5, 6]).1.initiatorAes.pos
      = 10 ∧
    (on_outgoing_data_connecting testE
      { (on_outgoing_connected testE baseState z16 2 [5, 6]).1 with
        outgoingReadBuf := wireOk }).1.state = SessionState.established ∧
    (on_outgoing_data_connecting testE
      { (on_outgoing_connected testE baseState z16 2 [5, 6]).1 with
        outgoingReadBuf := wireOk }).1.initiatorAes.pos = 0 ∧
    (on_outgoing_data_connecting testE
      { (on_outgoing_connected testE baseState z16 2 [5, 6]).1 with
        outgoingReadBuf := wireOk }).1.respPadLen = 0 ∧
    (on_outgoing_data_connecting testE
      { (on_outgoing_connected testE baseState z16 2 [5, 6]).1 with
        outgoingReadBuf := wireOk }).1.responderAes.pos = 0 := by
  refine ⟨rfl, ?_, rfl, rfl, rfl⟩
  decide

/-- C2 (amended): completing the handshake re-keys both cipher contexts
through `kdf_obfs2`: the initiator cipher used for the first data bytes
is freshly keyed from INIT_SECRET with its counter at position 0 (not
the continuation of the header+padding pad-key state), and the
responder padding bytes are drained without passing through any cipher,
the responder data cipher being freshly keyed from RESP_SECRET at
position 0 as well. -/
theorem kdf_rekeys_data_phase (E : List Nat → Nat → List Nat)
    (st : ClientState) (seed hdrPt pad : List Nat)
    (h1 : st.state = SessionState.connecting)
    (h2 : st.receivedSeedHdr = false)
    (hseed : seed.length = kSeedLength)
    (hhdr : hdrPt.length = 8)
    (hbuf : st.outgoingReadBuf =
      seed ++
      ctrProcess (setState E (sha256 (respMacKey ++ seed ++ respMacKey))).ks
        0 hdrPt ++ pad)
    (hmagic : fromBE32 (hdrPt.take 4) = kMagicValue)
    (hpadl : fromBE32 (hdrPt.drop 4) = pad.length)
    (hmax : pad.length ≤ kMaxPadding) :
    (on_outgoing_data_connecting E st).2 = true ∧
    (on_outgoing_data_connecting E st).1.state = SessionState.established ∧
    (on_outgoing_data_connecting E st).1.initiatorAes =
      setState E (sha256 (initData ++ (st.initSeed ++ seed) ++ initData)) ∧
    (on_outgoing_data_connecting E st).1.responderAes =
      setState E (sha256 (respData ++ (st.initSeed ++ seed) ++ respData)) ∧
    (on_outgoing_data_connecting E st).1.initiatorAes.pos = 0 ∧
    (on_outgoing_data_connecting E st).1.responderAes.pos = 0 := by
  have hsnil : seed ≠ [] := by
    intro hn
    rw [hn] at hseed
    simp [kSeedLength] at hseed
  have hXlen :
      (ctrProcess
        (setState E (sha256 (respMacKey ++ seed ++ respMacKey))).ks
        0 hdrPt).length = 8 := by
    rw [ctrProcess_length, hhdr]
  have hlen : st.outgoingReadBuf.length = kSeedLength + 8 + pad.length := by
    rw [hbuf]
    simp only [List.length_append, hseed, hXlen, kSeedLength]
  have htake : st.outgoingReadBuf.take kSeedLength = seed := by
    rw [hbuf, List.append_assoc]
    exact List.take_left' hseed
  have hdrop : st.outgoingReadBuf.drop kSeedLength =
      ctrProcess (setState E (sha256 (respMacKey ++ seed ++ respMacKey))).ks
        0 hdrPt ++ pad := by
    rw [hbuf, List.append_assoc]
    exact List.drop_left' hseed
  have hmacr : mac respMacKey seed kDigestLength =
      some (sha256 (respMacKey ++ seed ++ respMacKey)) :=
    mac_eq _ _ (by decide) hsnil
  have hkdf := kdf_obfs2_eq E st.initSeed seed (by simp [hsnil])
  simp only [on_outgoing_data_connecting]
  rw [if_neg (by simp [h1]), if_pos (by simp [h2]),
    if_neg (by omega), htake, hmacr]
  simp only [hdrop, AesCtr.process, setState_pos]
  rw [List.take_left' hXlen, List.drop_left' hXlen,
    ctrProcess_ctrProcess, hpadl]
  rw [if_neg (by simp [hmagic]), if_neg (by omega), hkdf]
  by_cases hnil : pad = []
  · subst hnil
    simp [skipPadding, send_socks5_response, setState_pos]
  · have hppos : 0 < pad.length := List.length_pos.mpr hnil
    simp only [skipPadding]
    rw [if_pos (by simpa using hppos)]
    simp only [List.length_nil, Nat.min_self, Nat.sub_self]
    rw [if_neg (by simp), send_socks5_response, if_pos rfl]
    exact ⟨rfl, rfl, rfl, rfl, rfl, rfl⟩

/-- C2 (witness): a concrete valid handshake run lands in ESTABLISHED
with both data ciphers freshly keyed at position 0. -/
theorem kdf_rekeys_data_phase_witness :
    (on_outgoing_data_connecting testE
      { baseState with outgoingReadBuf := wireOk }).2 = true ∧
    (on_outgoing_data_connecting testE
      { baseState with outgoingReadBuf := wireOk }).1.state =
      SessionState.established ∧
    (on_outgoing_data_connecting testE
      { baseState with outgoingReadBuf := wireOk }).1.initiatorAes =
      setState testE (sha256 (initData ++ (z16 ++ z16) ++ initData)) ∧
    (on_outgoing_data_connecting testE
      { baseState with outgoingReadBuf := wireOk }).1.responderAes =
      setState testE (sha256 (respData ++ (z16 ++ z16) ++ respData)) ∧
    (on_outgoing_data_connecting testE
      { baseState with outgoingReadBuf := wireOk }).1.initiatorAes.pos = 0 ∧
    (on_outgoing_data_connecting testE
      { baseState with outgoingReadBuf := wireOk }).1.responderAes.pos = 0 :=
  kdf_rekeys_data_phase testE { baseState with outgoingReadBuf := wireOk }
    z16 (be32 kMagicValue ++ be32 2) [7, 9]
    rfl rfl (by decide) (by decide) (by decide) (by decide) (by decide)
    (by decide)

/-- Folding one more chunk unfolds to a single feed. -/
theorem runIncoming_cons (st : ClientState) (c : List Nat)
    (cs : List (List Nat)) :
    runIncoming st (c :: cs) = runIncoming (feedIncoming st c) cs := rfl

/-- Folding one more chunk unfolds to a single feed. -/
theorem runOutgoing_cons (st : ClientState) (c : List Nat)
    (cs : List (List Nat)) :
    runOutgoing st (c :: cs) = runOutgoing (feedOutgoing st c) cs := rfl

/-- Effect of feeding the SOCKS-client chunks of an ESTABLISHED session:
the state is unchanged, the initiator cipher advances by the total chunk
length, the responder cipher is untouched, and the outgoing endpoint
receives the chunks encrypted as one contiguous keystream segment. -/
theorem runIncoming_fields (cs : List (List Nat)) :
    ∀ st : ClientState, st.state = SessionState.established →
      (runIncoming st cs).state = st.state ∧
      (runIncoming st cs).initiatorAes.ks = st.initiatorAes.ks ∧
      (runIncoming st cs).initiatorAes.pos =
        st.initiatorAes.pos + cs.flatten.length ∧
      (runIncoming st cs).responderAes = st.responderAes ∧
      (runIncoming st cs).outgoingWriteBuf =
        st.outgoingWriteBuf ++
          ctrProcess st.initiatorAes.ks st.initiatorAes.pos cs.flatten ∧
      (runIncoming st cs).incomingWriteBuf = st.incomingWriteBuf := by
  induction cs with
  | nil =>
    intro st h
    simp [runIncoming, ctrProcess]
  | cons c cs ih =>
    intro st h
    rw [runIncoming_cons]
    by_cases hc : c = []
    · subst hc
      have hfeed : feedIncoming st [] = { st with incomingReadBuf := [] } := by
        simp [feedIncoming, on_incoming_data, h]
      rw [hfeed]
      obtain ⟨e1, e2, e3, e4, e5, e6⟩ := ih { st with incomingReadBuf := [] } h
      exact ⟨e1, e2, by simpa using e3, e4, by simpa using e5, e6⟩
    · have hfeed : feedIncoming st c =
          { st with
            initiatorAes :=
              ⟨st.initiatorAes.ks, st.initiatorAes.pos + c.length⟩
            incomingReadBuf := []
            outgoingWriteBuf := st.outgoingWriteBuf ++
              ctrProcess st.initiatorAes.ks st.initiatorAes.pos c } := by
        simp [feedIncoming, on_incoming_data, h, AesCtr.process,
          List.length_eq_zero, hc]
      rw [hfeed]
      obtain ⟨e1, e2, e3, e4, e5, e6⟩ :=
        ih { st with
             initiatorAes :=
               ⟨st.initiatorAes.ks, st.initiatorAes.pos + c.length⟩
             incomingReadBuf := []
             outgoingWriteBuf := st.outgoingWriteBuf ++
               ctrProcess st.initiatorAes.ks st.initiatorAes.pos c } h
      refine ⟨e1, e2, ?_, e4, ?_, e6⟩
      · rw [e3]
        simp [List.flatten_cons, Nat.add_assoc]
      · rw [e5]
        simp only [List.flatten_cons, ctrProcess_append, List.append_assoc]

/-- Effect of feeding the bridge chunks of an ESTABLISHED session:
dual to `runIncoming_fields`, with the responder cipher advancing and
the incoming endpoint receiving the decrypted stream. -/
theorem runOutgoing_fields (cs : List (List Nat)) :
    ∀ st : ClientState, st.state = SessionState.established →
      (runOutgoing st cs).state = st.state ∧
      (runOutgoing st cs).responderAes.ks = st.responderAes.ks ∧
      (runOutgoing st cs).responderAes.pos =
        st.responderAes.pos + cs.flatten.length ∧
      (runOutgoing st cs).initiatorAes = st.initiatorAes ∧
      (runOutgoing st cs).incomingWriteBuf =
        st.incomingWriteBuf ++
          ctrProcess st.responderAes.ks st.responderAes.pos cs.flatten ∧
      (runOutgoing st cs).outgoingWriteBuf = st.outgoingWriteBuf := by
  induction cs with
  | nil =>
    intro st h
    simp [runOutgoing, ctrProcess]
  | cons c cs ih =>
    intro st h
    rw [runOutgoing_cons]
    by_cases hc : c = []
    · subst hc
      have hfeed : feedOutgoing st [] = { st with outgoingReadBuf := [] } := by
        simp [feedOutgoing, on_outgoing_data, h]
      rw [hfeed]
      obtain ⟨e1, e2, e3, e4, e5, e6⟩ := ih { st with outgoingReadBuf := [] } h
      exact ⟨e1, e2, by simpa using e3, e4, by simpa using e5, e6⟩
    · have hfeed : feedOutgoing st c =
          { st with
            responderAes :=
              ⟨st.responderAes.ks, st.responderAes.pos + c.length⟩
            outgoingReadBuf := []
            incomingWriteBuf := st.incomingWriteBuf ++
              ctrProcess st.responderAes.ks st.responderAes.pos c } := by
        simp [feedOutgoing, on_outgoing_data, h, AesCtr.process,
          List.length_eq_zero, hc]
      rw [hfeed]
      obtain ⟨e1, e2, e3, e4, e5, e6⟩ :=
        ih { st with
             responderAes :=
               ⟨st.responderAes.ks, st.responderAes.pos + c.length⟩
             outgoingReadBuf := []
             incomingWriteBuf := st.incomingWriteBuf ++
               ctrProcess st.responderAes.ks st.responderAes.pos c } h
      refine ⟨e1, e2, ?_, e4, ?_, e6⟩
      · rw [e3]
        simp [List.flatten_cons, Nat.add_assoc]
      · rw [e5]
        simp only [List.flatten_cons, ctrProcess_append, List.append_assoc]

/-- C1: the splice is a round trip.  Start in ESTABLISHED with the
`kdf_obfs2`-keyed ciphers at position 0 and empty write buffers; submit
the client bytes in any chunking `cs` through `on_incoming_data`; let
the peer strip the initiator keystream from the bytes the client sent
and echo them under the responder keystream, delivered in any chunking
`es`; then the bytes `on_outgoing_data` hands back to the SOCKS client
are exactly the original ones. -/
theorem obfs2_splice_roundtrip (st : ClientState) (cs es : List (List Nat))
    (hst : st.state = SessionState.established)
    (hpos1 : st.initiatorAes.pos = 0)
    (hpos2 : st.responderAes.pos = 0)
    (how : st.outgoingWriteBuf = [])
    (hiw : st.incomingWriteBuf = [])
    (hecho : es.flatten =
      ctrProcess st.responderAes.ks 0
        (ctrProcess st.initiatorAes.ks 0
          (runIncoming st cs).outgoingWriteBuf)) :
    (runOutgoing (runIncoming st cs) es).incomingWriteBuf = cs.flatten := by
  obtain ⟨e1, e2, e3, e4, e5, e6⟩ := runIncoming_fields cs st hst
  obtain ⟨g1, g2, g3, g4, g5, g6⟩ :=
    runOutgoing_fields es (runIncoming st cs) (by rw [e1, hst])
  rw [e5, how, List.nil_append, hpos1, ctrProcess_ctrProcess] at hecho
  rw [g5, e6, hiw, List.nil_append, e4, hpos2, hecho, ctrProcess_ctrProcess]

/-- C1 (witness): two chunks of client bytes, echoed by a model peer in
one chunk, come back intact. -/
theorem obfs2_splice_roundtrip_witness :
    (runOutgoing (runIncoming establishedW [[1, 2], [3]])
      [ctrProcess krW 0 (ctrProcess kiW 0
        (runIncoming establishedW [[1, 2], [3]]).outgoingWriteBuf)]
      ).incomingWriteBuf = [[1, 2], [3]].flatten :=
  obfs2_splice_roundtrip establishedW [[1, 2], [3]]
    [ctrProcess krW 0 (ctrProcess kiW 0
      (runIncoming establishedW [[1, 2], [3]]).outgoingWriteBuf)]
    rfl rfl rfl rfl rfl (by decide)

end Obfs2
